import Mathlib

/-!
Shallow embedding of the authorization core of `fastapi_user_auth`
(`fastapi_user_auth/auth/auth.py`, `fastapi_user_auth/admin.py`) together
with the token-store backends described by the spec, and theorems settling
the behavioural claims about it.

Machine-level conventions: the database is modelled as a lookup function
`String → Option User`; password hashing is the opaque capability
`verify : String → String → Bool`; awaited calls are ordinary function
application; a Python `AttributeError` escaping a function is modelled with
`Except`.
-/

namespace FastapiUserAuth

/-- Identity record. Mirrors the fields the spec's data model gives to
`BaseUser`/`User` from `models.py` (id, username, password hash, email,
active flag). The three key lists are the identity's associated role /
group / permission key sets; `permission_keys` is the union of all
permission keys reachable from the identity's roles and groups, as the
spec describes for the permission dimension. -/
structure User where
  id : Nat
  username : String
  password : String
  email : String
  is_active : Bool
  role_keys : List String
  group_keys : List String
  permission_keys : List String
deriving DecidableEq, Repr

/-- Modelled from the spec: `User.has_role` lives in `models.py`, which is
absent from `src/`. Per spec §4.3 step 4 it is the any-of membership check
of the requested role keys against the identity's role-key set. -/
def User.has_role (u : User) (roles : List String) : Bool :=
  roles.any (fun r => decide (r ∈ u.role_keys))

/-- Modelled from the spec: `User.has_group` lives in `models.py`, which is
absent from `src/`. Per spec §4.3 step 3 it is the any-of membership check
of the requested group keys against the identity's group-key set. -/
def User.has_group (u : User) (groups : List String) : Bool :=
  groups.any (fun g => decide (g ∈ u.group_keys))

/-- Modelled from the spec: `User.has_permission` lives in `models.py`,
which is absent from `src/`. Per spec §4.3 step 5 it is the any-of
membership check of the requested permission keys against the identity's
reachable permission-key set. -/
def User.has_permission (u : User) (permissions : List String) : Bool :=
  permissions.any (fun p => decide (p ∈ u.permission_keys))

/-- Token payload, as in the test suite's `BaseTokenData(id=1, username='test')`
(`schemas.py` is absent from `src/`; only `id` and `username` are used by
the core). -/
structure BaseTokenData where
  id : Nat
  username : String
deriving DecidableEq, Repr

/-! ## Token extraction (`AuthBackend.get_user_token`, auth.py lines 38-44) -/

/-- Python `str.lower` restricted to ASCII, as applied to the scheme. -/
def pyLower (s : String) : String :=
  String.mk (s.data.map Char.toLower)

/-- Python `s.partition(" ")` projected to (before, after): splits at the
first space; if there is no space the whole string is the first component. -/
def partitionSpace : List Char → List Char × List Char
  | [] => ([], [])
  | c :: rest =>
    if c = ' ' then ([], rest)
    else
      let p := partitionSpace rest
      (c :: p.1, p.2)

/-- `fastapi.security.utils.get_authorization_scheme_param`: on a falsy
value returns `("", "")`, otherwise partitions at the first space into
(scheme, param). -/
def get_authorization_scheme_param (authorization : Option String) : String × String :=
  match authorization with
  | none => ("", "")
  | some s =>
    if s = "" then ("", "")
    else
      let p := partitionSpace s.data
      (String.mk p.1, String.mk p.2)

/-- auth.py line 40: `request.headers.get("Authorization") or
request.cookies.get("Authorization")` with Python truthiness (absent and
the empty string are falsy). -/
def authorizationValue (header cookie : Option String) : Option String :=
  match header with
  | some s => if s = "" then cookie else some s
  | none => cookie

/-- Python falsiness of an optional string: `not authorization`. -/
def falsyStr : Option String → Bool
  | none => true
  | some s => s == ""

/-- `AuthBackend.get_user_token` (auth.py lines 38-44): pick the header or,
failing that, the cookie; return the token only when the value is truthy
and its scheme lowercases to `bearer`. -/
def get_user_token (header cookie : Option String) : Option String :=
  let authorization := authorizationValue header cookie
  let sp := get_authorization_scheme_param authorization
  if falsyStr authorization || (pyLower sp.1 != "bearer") then none
  else some sp.2

/-! ## Identity resolution (`AuthBackend.authenticate`, auth.py lines 46-56) -/

/-- The connection (`HTTPConnection`/`Request`): the two token transports
and the mutable scope entries `scope['auth']` (the backend's `Auth`
instance, truthy whenever set — modelled by `authSet`) and `scope['user']`. -/
structure Conn where
  header : Option String
  cookie : Option String
  authSet : Bool
  user : Option User
deriving DecidableEq, Repr

/-- Observation counters for the effects the spec cares about: token-store
reads (`token_store.read_token`) and identity lookups
(`auth.get_user_by_username`). -/
structure Counters where
  storeReads : Nat
  userLookups : Nat
deriving DecidableEq, Repr

/-- `AuthBackend.authenticate` (auth.py lines 46-56). `rt` is
`token_store.read_token`, `gu` is `auth.get_user_by_username`; the `Auth`
component of the Python return value is the constant `self.auth` and is
dropped. Returns the resolved identity together with the updated
connection scope and effect counters. -/
def authenticate (rt : String → Option BaseTokenData) (gu : String → Option User)
    (conn : Conn) (cnt : Counters) : Option User × Conn × Counters :=
  if conn.authSet then (conn.user, conn, cnt)
  else
    let conn1 : Conn := { conn with authSet := true, user := none }
    match get_user_token conn1.header conn1.cookie with
    | none => (conn1.user, conn1, cnt)
    | some token =>
      let cnt1 : Counters := ⟨cnt.storeReads + 1, cnt.userLookups⟩
      match rt token with
      | none => (conn1.user, conn1, cnt1)
      | some token_data =>
        let cnt2 : Counters := ⟨cnt1.storeReads, cnt1.userLookups + 1⟩
        let conn2 : Conn := { conn1 with user := gu token_data.username }
        (conn2.user, conn2, cnt2)

/-! ## Credential verification (`Auth.authenticate_user`, auth.py lines 89-95) -/

/-- A Python exception escaping a modelled function. -/
inductive PyError where
  | attributeError
deriving DecidableEq, Repr

/-- `Auth.authenticate_user` (auth.py lines 89-95). `db` is
`get_user_by_username`, `verify` is `pwd_context.verify`. The source binds
`pwd2 = user.password...` before the `if user` test, so when the lookup
returns `None` the attribute access raises `AttributeError`; the
`SecretStr` branches collapse because passwords are modelled as plain
strings. -/
def authenticate_user (db : String → Option User) (verify : String → String → Bool)
    (username password : String) : Except PyError (Option User) :=
  let user := db username
  match user with
  | none => .error .attributeError
  | some u =>
    if verify password u.password then .ok (some u) else .ok none

/-! ## The `requires` guard (auth.py lines 97-135) -/

/-- A `roles` / `groups` / `permissions` argument of `requires`: Python
`None`, a single string, or a sequence of strings. -/
inductive StrSeq where
  | nothing
  | str (s : String)
  | seq (l : List String)
deriving DecidableEq, Repr

/-- Python truthiness of a `StrSeq` (`if groups:`): `None`, the empty
string and the empty sequence are falsy. -/
def StrSeq.truthy : StrSeq → Bool
  | .nothing => false
  | .str s => s != ""
  | .seq l => !l.isEmpty

/-- The list built by `[x] if isinstance(x, str) else list(x)`. -/
def StrSeq.toList : StrSeq → List String
  | .nothing => []
  | .str s => [s]
  | .seq l => l

/-- `has_requires` (auth.py lines 106-124): resolve the identity via the
backend, fail on no identity, then check the groups, roles and permissions
dimensions in that order, each only when its argument is truthy. -/
def has_requires (rt : String → Option BaseTokenData) (gu : String → Option User)
    (roles groups permissions : StrSeq) (conn : Conn) (cnt : Counters) :
    Bool × Conn × Counters :=
  let r := authenticate rt gu conn cnt
  let conn1 := r.2.1
  let cnt1 := r.2.2
  match conn1.user with
  | none => (false, conn1, cnt1)
  | some user =>
    let ok :=
      if groups.truthy && !(user.has_group groups.toList) then false
      else if roles.truthy && !(user.has_role roles.toList) then false
      else if permissions.truthy && !(user.has_permission permissions.toList) then false
      else true
    (ok, conn1, cnt1)

/-- A substitute `response` argument of `requires`: the source accepts a
`Response` object (identified here by a tag) or a `bool` (the call sites
use `response=False`). -/
inductive RespValue where
  | bool (b : Bool)
  | response (tag : Nat)
deriving DecidableEq, Repr

/-- Outcome of the `depend` gate for one request. -/
inductive GateOutcome where
  | passed
  | redirectResponse (url : String) (statusCode : Nat)
  | substituteResponse (r : RespValue)
  | httpException (statusCode : Nat)
deriving DecidableEq, Repr

/-- Default of the `status_code` parameter of `Auth.requires`
(auth.py line 101). -/
def requires_default_status_code : Nat := 403

/-- `depend` (auth.py lines 126-135): pass when `has_requires` holds;
otherwise redirect with status 303 when a redirect target is configured,
else return the configured substitute response verbatim, else raise
`HTTPException` with the configured status code. -/
def depend (rt : String → Option BaseTokenData) (gu : String → Option User)
    (roles groups permissions : StrSeq) (status_code : Nat)
    (redirect : Option String) (response : Option RespValue)
    (urlFor : String → String) (conn : Conn) (cnt : Counters) :
    GateOutcome × Conn × Counters :=
  let r := has_requires rt gu roles groups permissions conn cnt
  if r.1 then (.passed, r.2.1, r.2.2)
  else
    match redirect with
    | some name => (.redirectResponse (urlFor name) 303, r.2.1, r.2.2)
    | none =>
      match response with
      | some v => (.substituteResponse v, r.2.1, r.2.2)
      | none => (.httpException status_code, r.2.1, r.2.2)

/-! ## Token stores

The backend implementations (`auth/backends/db.py`, `auth/backends/jwt.py`)
are absent from `src/`; only their interface contract (spec §4.1) and their
tests (`tests/test_auth/test_backend.py`) are available, so both stores are
modelled from the spec. -/

/-- A token-store failure distinct from a not-found result; `destroy_token`
of the stateless store raises `NotImplementedError` per the test suite. -/
inductive StoreError where
  | notImplementedError
deriving DecidableEq, Repr

/-- A persisted token record of the database-backed store: token string,
payload snapshot and expiry instant. -/
structure TokenRecord where
  token : String
  payload : BaseTokenData
  expiry : Nat
deriving DecidableEq, Repr

/-- Modelled from the spec: `DbTokenStore` (`auth/backends/db.py`, absent
from `src/`). Per spec §4.2 it persists `{token, payload, expiry}` records
in a durable store; the cryptographically random token generator is
modelled by a counter producing fresh strings. -/
structure DbTokenStore where
  records : List TokenRecord
  nextId : Nat
  expireSeconds : Nat
deriving DecidableEq, Repr

/-- Modelled from the spec: `DbTokenStore.write_token` generates a token
string, inserts the record with its expiry, and returns the string. -/
def DbTokenStore.write_token (s : DbTokenStore) (now : Nat) (p : BaseTokenData) :
    String × DbTokenStore :=
  let t := "token-" ++ toString s.nextId
  (t, ⟨⟨t, p, now + s.expireSeconds⟩ :: s.records, s.nextId + 1, s.expireSeconds⟩)

/-- Modelled from the spec: `DbTokenStore.read_token` looks the record up
by token string; a record found but expired is treated as absent (lazy
expiry). -/
def DbTokenStore.read_token (s : DbTokenStore) (now : Nat) (t : String) :
    Option BaseTokenData :=
  match s.records.find? (fun r => r.token == t) with
  | none => none
  | some r => if r.expiry < now then none else some r.payload

/-- Modelled from the spec: `DbTokenStore.destroy_token` deletes the
record; deleting a non-existent token is a no-op success, so the operation
never produces an error. -/
def DbTokenStore.destroy_token (s : DbTokenStore) (t : String) :
    Except StoreError DbTokenStore :=
  .ok ⟨s.records.filter (fun r => r.token != t), s.nextId, s.expireSeconds⟩

/-- Modelled from the spec: the signed-stateless token string of
`JwtTokenStore` (`auth/backends/jwt.py`, absent from `src/`). The signed,
tamper-evident encoding of payload and expiry is abstracted structurally:
a `signed` blob carries the signing key, the expiry claim and the payload,
and any other string is `malformed`. -/
inductive JwtToken where
  | signed (key : String) (expiry : Nat) (payload : BaseTokenData)
  | malformed (raw : String)
deriving DecidableEq, Repr

/-- Modelled from the spec: `JwtTokenStore` configuration (secret key and
token lifetime). -/
structure JwtTokenStore where
  secret_key : String
  expireSeconds : Nat
deriving DecidableEq, Repr

/-- Modelled from the spec: `JwtTokenStore.write_token` encodes payload and
expiry into a blob signed with the store's secret key. -/
def JwtTokenStore.write_token (s : JwtTokenStore) (now : Nat) (p : BaseTokenData) :
    JwtToken :=
  .signed s.secret_key (now + s.expireSeconds) p

/-- Modelled from the spec: `JwtTokenStore.read_token` fails closed
(returns absent) on signature mismatch, expiry or malformed input, and
never raises. -/
def JwtTokenStore.read_token (s : JwtTokenStore) (now : Nat) (t : JwtToken) :
    Option BaseTokenData :=
  match t with
  | .signed key expiry payload =>
    if key == s.secret_key && !(expiry < now) then some payload else none
  | .malformed _ => none

/-- Modelled from the spec: `JwtTokenStore.destroy_token` always fails with
the unsupported-operation signal (`NotImplementedError` in the tests) —
there is no server-side revocation list. -/
def JwtTokenStore.destroy_token (_s : JwtTokenStore) (_t : JwtToken) :
    Except StoreError Unit :=
  .error .notImplementedError

/-! ## Admin form handlers (`admin.py`) -/

/-- The `UserLoginOut` payload of a successful login/registration response:
the identity's fields plus the issued access token (absent in the
already-logged-in branch, which never writes one). -/
structure UserLoginOut where
  user : User
  access_token : Option String
deriving DecidableEq, Repr

/-- `BaseApiOut` restricted to the fields the handlers set: `status`
(default 0), `code` (default 0), `msg` (default empty) and `data`. -/
structure ApiOut where
  status : Int
  code : Int
  msg : String
  data : Option UserLoginOut
deriving DecidableEq, Repr

/-- Effects of one login-handler run the spec cares about: credential
checks performed and tokens issued. -/
structure LoginEffects where
  credentialChecks : Nat
  tokensIssued : Nat
deriving DecidableEq, Repr

/-- `UserLoginFormAdmin.handle` (admin.py lines 34-48): an already
authenticated request short-circuits to `code=1` with the existing
identity; otherwise `authenticate_user` runs (propagating its exception),
a missing match yields `status=-1`, an inactive identity `status=-2`, and
otherwise a token is issued and returned with `code=0`. -/
def UserLoginFormAdmin_handle (db : String → Option User)
    (verify : String → String → Bool) (issueToken : User → String)
    (requestUser : Option User) (username password : String) :
    Except PyError (ApiOut × LoginEffects) :=
  match requestUser with
  | some u => .ok (⟨0, 1, "用户已登录", some ⟨u, none⟩⟩, ⟨0, 0⟩)
  | none =>
    match authenticate_user db verify username password with
    | .error e => .error e
    | .ok none => .ok (⟨-1, 0, "用户名或密码不正确!", none⟩, ⟨1, 0⟩)
    | .ok (some user) =>
      if !user.is_active then .ok (⟨-2, 0, "用户状态未激活!", none⟩, ⟨1, 0⟩)
      else .ok (⟨0, 0, "", some ⟨user, some (issueToken user)⟩⟩, ⟨1, 1⟩)

/-- `UserRegFormAdmin.handle` (admin.py lines 100-125) up to the persistence
step: a taken username yields `status=-1`, a free username with a taken
email `status=-2`, otherwise the identity is created with the hashed
password, a token is issued and `code=0` returned. `byUsername` is
`get_user_by_username`, `byEmail` the `get_user_by_whereclause` email
lookup; the storage-failure branch (HTTP 500) is outside this model. -/
def UserRegFormAdmin_handle (byUsername : String → Option User)
    (byEmail : String → Option User) (hash : String → String)
    (issueToken : User → String) (newId : Nat)
    (username password email : String) : ApiOut :=
  match byUsername username with
  | some _ => ⟨-1, 0, "用户名已注册!", none⟩
  | none =>
    match byEmail email with
    | some _ => ⟨-2, 0, "邮箱已注册!", none⟩
    | none =>
      let user : User := ⟨newId, username, hash password, email, true, [], [], []⟩
      ⟨0, 0, "注册成功!", some ⟨user, some (issueToken user)⟩⟩

/-! ## Sample data used by concrete evaluations -/

/-- A concrete stored identity used by witnesses and counterexamples. -/
def sampleUser : User :=
  ⟨1, "bob", "hashed-pw", "bob@example.com", true, ["admin"], ["vip"], ["test"]⟩

/-! ## Helper lemmas -/

/-- After any call, the connection scope carries the auth marker and the
returned identity is exactly the one cached in the scope. -/
theorem authenticate_scope_set (rt : String → Option BaseTokenData)
    (gu : String → Option User) (conn : Conn) (cnt : Counters) :
    (authenticate rt gu conn cnt).2.1.authSet = true ∧
    (authenticate rt gu conn cnt).1 = (authenticate rt gu conn cnt).2.1.user := by
  unfold authenticate
  by_cases h : conn.authSet
  · simp [h]
  · simp only [h, Bool.false_eq_true, if_false]
    cases hg : get_user_token conn.header conn.cookie with
    | none => simp
    | some token => cases hrt : rt token <;> simp [hrt]

/-- On a connection whose scope already carries the auth marker, the
resolver returns the cached scope entries and changes nothing. -/
theorem authenticate_cached (rt : String → Option BaseTokenData)
    (gu : String → Option User) (conn : Conn) (cnt : Counters)
    (h : conn.authSet = true) :
    authenticate rt gu conn cnt = (conn.user, conn, cnt) := by
  unfold authenticate
  simp [h]

/-! ## Claims -/

/-- Claim C4: calling `AuthBackend.authenticate` a second time on the same
connection within one request returns exactly the result cached in the
connection scope by the first call and performs no second token-store read
and no second identity lookup (the connection state and both effect
counters are unchanged). -/
theorem C4_authenticate_idempotent (rt : String → Option BaseTokenData)
    (gu : String → Option User) (conn : Conn) (cnt : Counters) :
    authenticate rt gu (authenticate rt gu conn cnt).2.1 (authenticate rt gu conn cnt).2.2 =
      ((authenticate rt gu conn cnt).1, (authenticate rt gu conn cnt).2.1,
        (authenticate rt gu conn cnt).2.2) ∧
    (authenticate rt gu conn cnt).1 = (authenticate rt gu conn cnt).2.1.user := by
  have h := authenticate_scope_set rt gu conn cnt
  refine ⟨?_, h.2⟩
  rw [authenticate_cached rt gu _ _ h.1, h.2]

/-- Claim C2 (code bug): `authenticate_user` was claimed to return the same
absent result for an unknown username as for a wrong password; on the code,
an unknown username raises `AttributeError` (auth.py line 92 reads
`user.password` before the `if user` test), while a wrong password for an
existing identity does return the absent result. -/
theorem C2_authenticate_user_unknown_username_raises :
    authenticate_user (fun _ => none) (fun _ _ => true) "alice" "secret"
        = .error .attributeError ∧
    authenticate_user (fun u => if u == "bob" then some sampleUser else none)
        (fun p h => p == h) "bob" "wrong" = .ok none := by
  exact ⟨rfl, rfl⟩

/-- Claim C9 (code bug): the login handler was claimed to return
`status=-1` for invalid credentials; on the code, submitting a username
with no matching identity propagates the `AttributeError` raised inside
`authenticate_user` (admin.py line 39 → auth.py line 92) instead of
producing the `status=-1` envelope. -/
theorem C9_login_unknown_username_raises :
    UserLoginFormAdmin_handle (fun _ => none) (fun _ _ => true) (fun _ => "tok")
        none "ghost" "pw" = .error .attributeError := rfl

/-- Claim C10: when the request already carries an authenticated identity,
the login handler returns `code=1` with that identity's data, performs no
credential check and issues no token, whatever credentials were
submitted. -/
theorem C10_login_already_authenticated (db : String → Option User)
    (verify : String → String → Bool) (issueToken : User → String)
    (u : User) (username password : String) :
    UserLoginFormAdmin_handle db verify issueToken (some u) username password =
      .ok (⟨0, 1, "用户已登录", some ⟨u, none⟩⟩, ⟨0, 0⟩) := rfl

/-- Claim C7: for the signed-stateless store, `destroy_token` always fails
with the unsupported-operation signal (a named failure, not a not-found
result), while `read_token` after `write_token` returns the written
payload. -/
theorem C7_jwt_destroy_unsupported_and_roundtrip :
    (∀ (s : JwtTokenStore) (t : JwtToken),
        s.destroy_token t = .error .notImplementedError) ∧
    (∀ (s : JwtTokenStore) (now : Nat) (p : BaseTokenData),
        s.read_token now (s.write_token now p) = some p) := by
  refine ⟨fun s t => rfl, fun s now p => ?_⟩
  simp [JwtTokenStore.read_token, JwtTokenStore.write_token]

/-- The guard's nested early-return chain as one boolean expression. -/
theorem if_chain_eq (a b c : Bool) :
    (if a then false else if b then false else if c then false else true)
      = (!a && !b && !c) := by
  cases a <;> cases b <;> cases c <;> rfl

/-- A boolean guard implication is the claim's empty-or-match disjunction. -/
theorem bool_imp_iff (a : Bool) (X : Prop) : (a = true → X) ↔ (a = false ∨ X) := by
  cases a <;> simp

/-- Claim C1: on a connection with a resolved identity, the guard predicate
produced by `requires(roles, groups, permissions)` holds iff every
dimension is either unconstrained or has at least one of its requested
keys in the identity's corresponding key set (AND across dimensions, OR
within a dimension). -/
theorem C1_has_requires_iff (rt : String → Option BaseTokenData)
    (gu : String → Option User) (R G P : StrSeq) (conn : Conn) (cnt : Counters)
    (u : User) (hset : conn.authSet = true) (huser : conn.user = some u) :
    (has_requires rt gu R G P conn cnt).1 = true ↔
      ((R.truthy = false ∨ ∃ r ∈ R.toList, r ∈ u.role_keys) ∧
       (G.truthy = false ∨ ∃ g ∈ G.toList, g ∈ u.group_keys) ∧
       (P.truthy = false ∨ ∃ p ∈ P.toList, p ∈ u.permission_keys)) := by
  unfold has_requires
  rw [authenticate_cached rt gu conn cnt hset]
  simp only [huser, if_chain_eq]
  simp [User.has_role, User.has_group, User.has_permission, List.any_eq_true,
    ← bool_imp_iff]
  tauto

/-- Claim C3: a requirement spec with all three dimensions empty passes
exactly the connections whose resolved identity is present — any
authenticated identity passes, no identity fails. -/
theorem C3_empty_spec_any_identity (rt : String → Option BaseTokenData)
    (gu : String → Option User) (R G P : StrSeq) (conn : Conn) (cnt : Counters)
    (hR : R.truthy = false) (hG : G.truthy = false) (hP : P.truthy = false) :
    (has_requires rt gu R G P conn cnt).1 =
      ((has_requires rt gu R G P conn cnt).2.1.user).isSome := by
  unfold has_requires
  cases h : (authenticate rt gu conn cnt).2.1.user <;> simp [h, hR, hG, hP]

/-- Claim C5: a request that fails the guard predicate gets exactly one of
three outcomes, in strict priority order — a 303 redirect when a redirect
target is configured, else the configured substitute response verbatim,
else an `HTTPException` with the configured status code, whose default is
403. -/
theorem C5_gate_failure_outcomes (rt : String → Option BaseTokenData)
    (gu : String → Option User) (R G P : StrSeq) (sc : Nat)
    (rd : Option String) (rsp : Option RespValue) (urlFor : String → String)
    (conn : Conn) (cnt : Counters)
    (hfail : (has_requires rt gu R G P conn cnt).1 = false) :
    (∀ name, rd = some name →
        (depend rt gu R G P sc rd rsp urlFor conn cnt).1 =
          .redirectResponse (urlFor name) 303) ∧
    (rd = none → ∀ v, rsp = some v →
        (depend rt gu R G P sc rd rsp urlFor conn cnt).1 = .substituteResponse v) ∧
    (rd = none → rsp = none →
        (depend rt gu R G P sc rd rsp urlFor conn cnt).1 = .httpException sc) ∧
    requires_default_status_code = 403 := by
  refine ⟨?_, ?_, ?_, rfl⟩
  · intro name hname
    simp [depend, hfail, hname]
  · intro hrd v hv
    simp [depend, hfail, hrd, hv]
  · intro hrd hv
    simp [depend, hfail, hrd, hv]

/-- Claim C6: for the database-backed store, reading a just-written token
returns the written payload; after a successful destroy the token reads as
absent; and destroying a token that is not among the stored records is a
no-op success. -/
theorem C6_db_store_laws :
    (∀ (s : DbTokenStore) (now : Nat) (p : BaseTokenData),
        (s.write_token now p).2.read_token now (s.write_token now p).1 = some p) ∧
    (∀ (s : DbTokenStore) (now : Nat) (t : String) (s2 : DbTokenStore),
        s.destroy_token t = .ok s2 → s2.read_token now t = none) ∧
    (∀ (s : DbTokenStore) (t : String),
        (∀ r ∈ s.records, r.token ≠ t) → s.destroy_token t = .ok s) := by
  refine ⟨?_, ?_, ?_⟩
  · intro s now p
    simp [DbTokenStore.write_token, DbTokenStore.read_token, List.find?]
  · intro s now t s2 h
    simp only [DbTokenStore.destroy_token, Except.ok.injEq] at h
    subst h
    simp only [DbTokenStore.read_token]
    cases hf : List.find? (fun r => r.token == t)
        (s.records.filter (fun r => r.token != t)) with
    | none => simp
    | some r =>
      have hp := List.find?_some hf
      have hmem := List.mem_of_find?_eq_some hf
      have hq := List.of_mem_filter hmem
      simp at hp hq
      exact absurd hp hq
  · intro s t h
    simp only [DbTokenStore.destroy_token, Except.ok.injEq]
    have hfil : s.records.filter (fun r => r.token != t) = s.records :=
      List.filter_eq_self.mpr (fun a ha => by simpa [bne_iff_ne] using h a ha)
    rw [hfil]

/-- `partitionSpace` splits a space-free scheme from the rest at the first
space. -/
theorem partitionSpace_append (pre t : List Char) (hpre : ' ' ∉ pre) :
    partitionSpace (pre ++ ' ' :: t) = (pre, t) := by
  induction pre with
  | nil => simp [partitionSpace]
  | cons c cs ih =>
    simp only [List.mem_cons, not_or] at hpre
    simp only [List.cons_append, partitionSpace]
    rw [if_neg (fun hc => hpre.1 hc.symm)]
    simp [ih hpre.2]

/-- Claim C8: token extraction takes the Authorization header when it
carries a value, falls back to the Authorization cookie otherwise, yields
no token when the selected value's scheme is not `bearer` (or no source
carries a value), and reads back a cookie written as `bearer <token>`. -/
theorem C8_get_user_token_spec :
    (∀ (h : String) (c : Option String), h ≠ "" →
        get_user_token (some h) c = get_user_token (some h) none) ∧
    (∀ s : String, get_user_token none (some s) = get_user_token (some s) none) ∧
    (∀ (h c : Option String),
        falsyStr (authorizationValue h c) = true ∨
          pyLower (get_authorization_scheme_param (authorizationValue h c)).1 ≠ "bearer" →
        get_user_token h c = none) ∧
    (∀ t : String, get_user_token none (some ("bearer " ++ t)) = some t) ∧
    (∀ (t : String) (c : Option String),
        get_user_token (some ("Bearer " ++ t)) c = some t) := by
  refine ⟨?_, ?_, ?_, ?_, ?_⟩
  · intro h c hne
    simp [get_user_token, authorizationValue, hne]
  · intro s
    by_cases hs : s = "" <;>
      simp [get_user_token, authorizationValue, falsyStr, hs]
  · intro h c hd
    rcases hd with hfal | hsch
    · simp [get_user_token, hfal]
    · simp [get_user_token, bne_iff_ne, hsch]
  · intro t
    have hdata : ("bearer " ++ t).data =
        ['b', 'e', 'a', 'r', 'e', 'r'] ++ ' ' :: t.data := by
      rw [String.data_append]; rfl
    have hne : ("bearer " ++ t) ≠ "" := by
      intro hc
      have hd := congrArg String.data hc
      rw [hdata] at hd
      simp at hd
    have hsch : get_authorization_scheme_param (some ("bearer " ++ t)) =
        (String.mk ['b', 'e', 'a', 'r', 'e', 'r'], t) := by
      simp only [get_authorization_scheme_param]
      rw [if_neg hne, hdata, partitionSpace_append _ _ (by decide)]
    have h1 : falsyStr (some ("bearer " ++ t)) = false := by
      simp [falsyStr, hne]
    have h2 : (pyLower (String.mk ['b', 'e', 'a', 'r', 'e', 'r']) != "bearer") = false := by
      decide
    simp only [get_user_token, authorizationValue, hsch, h1, h2,
      Bool.or_self, Bool.false_eq_true, if_false]
  · intro t c
    have hdata : ("Bearer " ++ t).data =
        ['B', 'e', 'a', 'r', 'e', 'r'] ++ ' ' :: t.data := by
      rw [String.data_append]; rfl
    have hne : ("Bearer " ++ t) ≠ "" := by
      intro hc
      have hd := congrArg String.data hc
      rw [hdata] at hd
      simp at hd
    have hsch : get_authorization_scheme_param (some ("Bearer " ++ t)) =
        (String.mk ['B', 'e', 'a', 'r', 'e', 'r'], t) := by
      simp only [get_authorization_scheme_param]
      rw [if_neg hne, hdata, partitionSpace_append _ _ (by decide)]
    have h1 : falsyStr (some ("Bearer " ++ t)) = false := by
      simp [falsyStr, hne]
    have h2 : (pyLower (String.mk ['B', 'e', 'a', 'r', 'e', 'r']) != "bearer") = false := by
      decide
    have hval : authorizationValue (some ("Bearer " ++ t)) c = some ("Bearer " ++ t) := by
      simp [authorizationValue, hne]
    simp only [get_user_token, hval, hsch, h1, h2,
      Bool.or_self, Bool.false_eq_true, if_false]

/-! ## Concrete instances for the witnesses -/

/-- A token store that knows no tokens. -/
def noTokens : String → Option BaseTokenData := fun _ => none

/-- An identity store that knows no identities. -/
def noUsers : String → Option User := fun _ => none

/-- A connection already resolved to `sampleUser`. -/
def sampleConn : Conn := ⟨none, none, true, some sampleUser⟩

/-- A connection already resolved to no identity. -/
def anonConn : Conn := ⟨none, none, true, none⟩

/-- Counters before any observation. -/
def zeroCounters : Counters := ⟨0, 0⟩

/-- A trivial route-name-to-URL resolver. -/
def plainUrl : String → String := fun s => s

/-- A database-backed token store with no records. -/
def emptyDb : DbTokenStore := ⟨[], 0, 3600⟩

/-- Witness for C1: the resolved sample connection satisfies both
hypotheses and the guard equivalence holds there. -/
theorem C1_witness :
    sampleConn.authSet = true ∧ sampleConn.user = some sampleUser ∧
    ((has_requires noTokens noUsers (.str "admin") .nothing .nothing
        sampleConn zeroCounters).1 = true ↔
      ((StrSeq.truthy (.str "admin") = false ∨
          ∃ r ∈ StrSeq.toList (.str "admin"), r ∈ sampleUser.role_keys) ∧
       (StrSeq.truthy .nothing = false ∨
          ∃ g ∈ StrSeq.toList .nothing, g ∈ sampleUser.group_keys) ∧
       (StrSeq.truthy .nothing = false ∨
          ∃ p ∈ StrSeq.toList .nothing, p ∈ sampleUser.permission_keys))) :=
  ⟨rfl, rfl,
    C1_has_requires_iff noTokens noUsers (.str "admin") .nothing .nothing
      sampleConn zeroCounters sampleUser rfl rfl⟩

/-- Witness for C3: the all-empty spec on the resolved sample connection. -/
theorem C3_witness :
    StrSeq.truthy .nothing = false ∧
    (has_requires noTokens noUsers .nothing .nothing .nothing
        sampleConn zeroCounters).1 =
      ((has_requires noTokens noUsers .nothing .nothing .nothing
          sampleConn zeroCounters).2.1.user).isSome :=
  ⟨rfl,
    C3_empty_spec_any_identity noTokens noUsers .nothing .nothing .nothing
      sampleConn zeroCounters rfl rfl rfl⟩

/-- Witness for C5: an anonymous connection fails the `admin` guard and,
with no redirect and no substitute configured, gets the default 403. -/
theorem C5_witness :
    (has_requires noTokens noUsers (.str "admin") .nothing .nothing
        anonConn zeroCounters).1 = false ∧
    (depend noTokens noUsers (.str "admin") .nothing .nothing
        requires_default_status_code none none plainUrl anonConn zeroCounters).1 =
      .httpException requires_default_status_code :=
  ⟨rfl,
    (C5_gate_failure_outcomes noTokens noUsers (.str "admin") .nothing .nothing
      requires_default_status_code none none plainUrl anonConn zeroCounters
      rfl).2.2.1 rfl rfl⟩

/-- Witness for C6: destroying a never-issued token on the empty store is
a no-op success, after which (indeed, before which) the token reads as
absent. -/
theorem C6_witness :
    (∀ r ∈ emptyDb.records, r.token ≠ "ghost") ∧
    emptyDb.destroy_token "ghost" = .ok emptyDb ∧
    emptyDb.read_token 0 "ghost" = none :=
  ⟨by simp [emptyDb],
    C6_db_store_laws.2.2 emptyDb "ghost" (by simp [emptyDb]),
    C6_db_store_laws.2.1 emptyDb 0 "ghost" emptyDb rfl⟩

/-- Witness for C8: a non-empty header wins over the cookie, and with no
source at all no token is produced. -/
theorem C8_witness :
    "Bearer tok" ≠ "" ∧
    get_user_token (some "Bearer tok") (some "bearer cookie") =
      get_user_token (some "Bearer tok") none ∧
    get_user_token none none = none :=
  ⟨by decide,
    C8_get_user_token_spec.1 "Bearer tok" (some "bearer cookie") (by decide),
    C8_get_user_token_spec.2.2.1 none none (Or.inl rfl)⟩

end FastapiUserAuth
